import Mathlib

/-!
Shallow embedding of the agent payment platform services.

Each FastAPI service keeps its records in a module-level Python dict; here a
store is an association list from the record id to the record, and a handler
that mutates the dict is a function from the request and the store to the
response together with the updated store.  A handler that raises
HTTPException is modelled as returning an error value and the store
unchanged.  Python floats are embedded as rationals.
-/

structure HTTPError where
  status : Nat
  detail : String
deriving DecidableEq

/-! ## Ledger service (src/cmd/ledger/main.py) -/

structure LedgerLine where
  account : String
  debit : Option ℚ := none
  credit : Option ℚ := none
deriving DecidableEq

structure LedgerEntry where
  entry_id : String
  txn_id : String
  timestamp : String
  currency : String
  lines : List LedgerLine
  metadata : Option (List (String × String)) := none
  hash : Option String := none
  prev_hash : Option String := none
deriving DecidableEq

abbrev LedgerDB := List (String × LedgerEntry)

def post_ledger_entry (entry : LedgerEntry) (db : LedgerDB) :
    Except HTTPError LedgerEntry × LedgerDB :=
  if (db.lookup entry.entry_id).isSome then
    (Except.error ⟨409, "Entry already exists"⟩, db)
  else
    (Except.ok entry, (entry.entry_id, entry) :: db)

def get_ledger_entry (entry_id : String) (db : LedgerDB) :
    Except HTTPError LedgerEntry :=
  match db.lookup entry_id with
  | some e => Except.ok e
  | none => Except.error ⟨404, "Entry not found"⟩

/-- Sum of the debit values of the lines, a missing debit counting as 0.
Used only to state balancedness of an entry. -/
def debitTotal (lines : List LedgerLine) : ℚ :=
  (lines.map (fun l => l.debit.getD 0)).sum

/-- Sum of the credit values of the lines, a missing credit counting as 0.
Used only to state balancedness of an entry. -/
def creditTotal (lines : List LedgerLine) : ℚ :=
  (lines.map (fun l => l.credit.getD 0)).sum

/-! ## Consent service (src/cmd/consent/main.py) -/

structure ConsentLimits where
  single_txn_usd : ℚ
  daily_usd : ℚ
  max_txn_per_hour : Int
deriving DecidableEq

structure CosignRule where
  threshold_usd : ℚ
  approver_group : String
deriving DecidableEq

structure Consent where
  id : String
  agent_id : String
  owner_party_id : String
  rails : List String
  counterparties_allow : List String
  limits : ConsentLimits
  policy_bundle_version : String
  cosign_rule : CosignRule
  created_at : String
  revoked : Bool
deriving DecidableEq

abbrev ConsentDB := List (String × Consent)

def create_consent (consent : Consent) (db : ConsentDB) :
    Except HTTPError Consent × ConsentDB :=
  if (db.lookup consent.id).isSome then
    (Except.error ⟨409, "Consent already exists"⟩, db)
  else
    (Except.ok consent, (consent.id, consent) :: db)

def get_consent (consent_id : String) (db : ConsentDB) :
    Except HTTPError Consent :=
  match db.lookup consent_id with
  | some c => Except.ok c
  | none => Except.error ⟨404, "Consent not found"⟩

/-! ## Risk service (src/cmd/risk/main.py) -/

structure RiskRequest where
  agent_id : String
  amount : ℚ
  currency : String
  counterparty : String
  consent_id : String
  context : Option (List (String × String)) := none
deriving DecidableEq

structure RiskResponse where
  score : ℚ
  decision : String
  reason : String
deriving DecidableEq

def score_risk (req : RiskRequest) : RiskResponse :=
  let score : ℚ := if req.amount < 1000 then 1/10 else 8/10
  let decision := if score < 1/2 then "approve" else "review"
  let reason := if score < 1/2 then "Low amount" else "High amount"
  ⟨score, decision, reason⟩

/-! ## Router service (src/cmd/router/main.py) -/

structure RouteRequest where
  agent_id : String
  amount : ℚ
  currency : String
  counterparty : String
  consent_id : String
  memo : Option String := none
deriving DecidableEq

structure RouteResponse where
  status : String
  rail : String
  plan : String
deriving DecidableEq

def route_payment (req : RouteRequest) : RouteResponse :=
  { status := "routed"
    rail := if req.amount < 5000 then "ach" else "wire"
    plan := "authorize, place hold, submit, settle, release hold, reconcile" }

/-! ## Orchestration service (src/cmd/orchestration/main.py) -/

structure OrchestrationRequest where
  agent_id : String
  consent_id : String
  amount : ℚ
  currency : String
  counterparty : String
  memo : Option String := none
deriving DecidableEq

structure OrchestrationStatus where
  workflow_id : String
  status : String
  details : Option String := none
deriving DecidableEq

abbrev OrchDB := List (String × OrchestrationStatus)

def start_orchestration (req : OrchestrationRequest) (db : OrchDB) :
    OrchestrationStatus × OrchDB :=
  let workflow_id := "wf_" ++ req.agent_id ++ "_" ++ toString req.amount
  let status : OrchestrationStatus :=
    { workflow_id := workflow_id, status := "started"
      details := some "Orchestration initiated" }
  (status, (workflow_id, status) :: db)

def get_orchestration_status (workflow_id : String) (db : OrchDB) :
    Except HTTPError OrchestrationStatus :=
  match db.lookup workflow_id with
  | some s => Except.ok s
  | none => Except.error ⟨404, "Workflow not found"⟩

/-! ## ConsentStore.authorize -/

inductive AuthDecision where
  | Authorized : AuthDecision
  | RequiresCosign : String → AuthDecision
  | Denied : String → AuthDecision
deriving DecidableEq

/-- Sum of the amounts of the usage events in the rolling 24 hour window
ending at the clock value.  A usage event is a pair of its timestamp in
hours and its amount. -/
def dailySum (usage : List (ℚ × ℚ)) (now : ℚ) : ℚ :=
  ((usage.filter (fun u => now - u.1 < 24)).map (fun u => u.2)).sum

/-- Number of usage events in the trailing 60 minute window ending at the
clock value. -/
def hourlyCount (usage : List (ℚ × ℚ)) (now : ℚ) : Int :=
  (usage.filter (fun u => now - u.1 < 1)).length

/-- Modelled from the spec: the consent service under src/ exposes only the
create and get endpoints; the authorize decision operation of section 4.1 is
absent from the source, so it is modelled from the specification text.
Checks in order, short-circuiting on the first failure: consent exists and
is not revoked; agent_id matches; rail is among the consent rails;
counterparty is in counterparties_allow; amount at most single_txn_usd;
rolling 24 hour sum of authorized amounts plus amount at most daily_usd;
trailing 60 minute count plus 1 at most max_txn_per_hour; finally, if amount
is at least cosign_rule.threshold_usd, the result is RequiresCosign with the
approver group, else Authorized. -/
def authorize (db : ConsentDB) (usage : List (ℚ × ℚ)) (consent_id : String)
    (agent_id : String) (amount : ℚ) (rail : String) (counterparty : String)
    (now : ℚ) : AuthDecision :=
  match db.lookup consent_id with
  | none => AuthDecision.Denied "consent not found"
  | some c =>
    if c.revoked then AuthDecision.Denied "consent revoked"
    else if c.agent_id ≠ agent_id then AuthDecision.Denied "agent mismatch"
    else if rail ∉ c.rails then AuthDecision.Denied "rail not allowed"
    else if counterparty ∉ c.counterparties_allow then
      AuthDecision.Denied "counterparty not allowed"
    else if c.limits.single_txn_usd < amount then
      AuthDecision.Denied "single transaction limit exceeded"
    else if c.limits.daily_usd < dailySum usage now + amount then
      AuthDecision.Denied "daily limit exceeded"
    else if c.limits.max_txn_per_hour < hourlyCount usage now + 1 then
      AuthDecision.Denied "hourly transaction count exceeded"
    else if c.cosign_rule.threshold_usd ≤ amount then
      AuthDecision.RequiresCosign c.cosign_rule.approver_group
    else AuthDecision.Authorized

/-! ## Concrete sample data used by witnesses and counterexamples -/

/-- An entry whose lines do not balance (debit total -3, credit total 7) and
whose debit value is not strictly positive. -/
def unbalancedEntry : LedgerEntry :=
  { entry_id := "e_bad", txn_id := "t_bad", timestamp := "2024-01-01T00:00:00Z",
    currency := "USD",
    lines := [{ account := "acct_a", debit := some (-3) },
              { account := "acct_b", credit := some 7 }] }

/-- An ordinary balanced entry. -/
def sampleEntry : LedgerEntry :=
  { entry_id := "e1", txn_id := "t1", timestamp := "2024-01-01T00:00:00Z",
    currency := "USD",
    lines := [{ account := "acct_a", debit := some 5 },
              { account := "acct_b", credit := some 5 }] }

/-- Same entry_id as sampleEntry but different content. -/
def sampleEntryAltered : LedgerEntry :=
  { entry_id := "e1", txn_id := "t_other", timestamp := "2024-01-02T00:00:00Z",
    currency := "USD",
    lines := [{ account := "acct_a", debit := some 9 },
              { account := "acct_b", credit := some 9 }] }

/-- A committed chain head whose hash field is "h0". -/
def priorEntry : LedgerEntry :=
  { entry_id := "e0", txn_id := "t0", timestamp := "2024-01-01T00:00:00Z",
    currency := "USD",
    lines := [{ account := "acct_a", debit := some 1 },
              { account := "acct_b", credit := some 1 }],
    hash := some "h0" }

/-- A ledger store whose single committed entry is priorEntry. -/
def chainDb : LedgerDB := [("e0", priorEntry)]

/-- An entry posted on top of chainDb carrying a caller-chosen prev_hash that
does not match the hash of the chain head. -/
def chainEntry : LedgerEntry :=
  { entry_id := "e2", txn_id := "t2", timestamp := "2024-01-03T00:00:00Z",
    currency := "USD",
    lines := [{ account := "acct_a", debit := some 2 },
              { account := "acct_b", credit := some 2 }],
    hash := some "caller-made-hash", prev_hash := some "bogus" }

/-- A consent whose revoked flag is true. -/
def revokedConsent : Consent :=
  { id := "c1", agent_id := "agent1", owner_party_id := "p1",
    rails := ["ach", "wire"], counterparties_allow := ["acme"],
    limits := { single_txn_usd := 10000, daily_usd := 10000, max_txn_per_hour := 10 },
    policy_bundle_version := "v1",
    cosign_rule := { threshold_usd := 1000000000, approver_group := "ops" },
    created_at := "2024-01-01T00:00:00Z", revoked := true }

/-- A consent store holding only revokedConsent. -/
def consentDb1 : ConsentDB := [("c1", revokedConsent)]

/-- A consent with strictly negative limits and a fresh id. -/
def negativeLimitsConsent : Consent :=
  { id := "c_neg", agent_id := "agent1", owner_party_id := "p1",
    rails := ["ach"], counterparties_allow := ["acme"],
    limits := { single_txn_usd := -5, daily_usd := -1, max_txn_per_hour := -2 },
    policy_bundle_version := "v1",
    cosign_rule := { threshold_usd := 100, approver_group := "ops" },
    created_at := "2024-01-01T00:00:00Z", revoked := false }

/-- Same id as revokedConsent but different content. -/
def alteredConsent : Consent :=
  { id := "c1", agent_id := "agent2", owner_party_id := "p2",
    rails := ["wire"], counterparties_allow := ["globex"],
    limits := { single_txn_usd := 1, daily_usd := 2, max_txn_per_hour := 3 },
    policy_bundle_version := "v2",
    cosign_rule := { threshold_usd := 7, approver_group := "sec" },
    created_at := "2024-02-01T00:00:00Z", revoked := false }

/-- A risk request with amount 8000, in the high band. -/
def highRiskReq : RiskRequest :=
  { agent_id := "agent1", amount := 8000, currency := "USD",
    counterparty := "acme", consent_id := "c1" }

/-- A route request whose currency and counterparty match no configured rail
band of any kind. -/
def weirdRouteReq : RouteRequest :=
  { agent_id := "agent1", amount := 5, currency := "ZZZ",
    counterparty := "nobody", consent_id := "c9" }

/-- An orchestration request. -/
def orchReqA : OrchestrationRequest :=
  { agent_id := "agent1", consent_id := "c1", amount := 100,
    currency := "USD", counterparty := "acme" }

/-- A second orchestration request with the same agent_id and amount as
orchReqA but different consent, currency and counterparty. -/
def orchReqB : OrchestrationRequest :=
  { agent_id := "agent1", consent_id := "c2", amount := 100,
    currency := "EUR", counterparty := "globex" }

/-! ## Theorems -/

/-- Claim C1 counterexample: an entry whose lines do not balance and whose
debit value is not strictly positive is accepted and stored by
post_ledger_entry on an empty store, rather than rejected with Unbalanced or
InvalidLine. -/
theorem ledger_accepts_unbalanced_entry :
    debitTotal unbalancedEntry.lines ≠ creditTotal unbalancedEntry.lines ∧
    ((unbalancedEntry.lines.head?).map LedgerLine.debit) = some (some (-3)) ∧
    post_ledger_entry unbalancedEntry [] =
      (Except.ok unbalancedEntry, [("e_bad", unbalancedEntry)]) := by
  refine ⟨?_, ?_, ?_⟩
  · norm_num [debitTotal, creditTotal, unbalancedEntry]
  · rfl
  · rfl

/-- Claim C1 amended: post_ledger_entry validates only that the entry_id is
not already present; any entry with a fresh entry_id, balanced or not,
positive-valued or not, is stored and retrievable as given. -/
theorem post_ledger_entry_only_checks_duplicate (entry : LedgerEntry)
    (db : LedgerDB) (h : db.lookup entry.entry_id = none) :
    post_ledger_entry entry db = (Except.ok entry, (entry.entry_id, entry) :: db) ∧
    get_ledger_entry entry.entry_id ((entry.entry_id, entry) :: db) =
      Except.ok entry := by
  constructor
  · simp [post_ledger_entry, h]
  · simp [get_ledger_entry, List.lookup]

/-- Claim C1 witness: the fresh-id branch of
post_ledger_entry_only_checks_duplicate at a concrete entry and the empty
store. -/
theorem post_ledger_entry_only_checks_duplicate_witness :
    post_ledger_entry unbalancedEntry [] =
      (Except.ok unbalancedEntry, [(unbalancedEntry.entry_id, unbalancedEntry)]) ∧
    get_ledger_entry unbalancedEntry.entry_id
        [(unbalancedEntry.entry_id, unbalancedEntry)] = Except.ok unbalancedEntry :=
  post_ledger_entry_only_checks_duplicate unbalancedEntry [] rfl

/-- Claim C2 counterexample: a second post of exactly the same entry fails
with a 409 conflict instead of being a no-op success returning the
previously committed entry. -/
theorem ledger_repost_identical_content_fails :
    post_ledger_entry sampleEntry [("e1", sampleEntry)] =
      (Except.error ⟨409, "Entry already exists"⟩, [("e1", sampleEntry)]) := by
  rfl

/-- Claim C2 amended: a second post with an entry_id already present fails
with 409 Conflict regardless of whether the content is identical or
different, and the store is left unchanged; no EntryMismatch distinction
exists. -/
theorem post_ledger_entry_duplicate_always_conflict (entry e0 : LedgerEntry)
    (db : LedgerDB) (h : db.lookup entry.entry_id = some e0) :
    post_ledger_entry entry db = (Except.error ⟨409, "Entry already exists"⟩, db) := by
  simp [post_ledger_entry, h]

/-- Claim C2 witness: post_ledger_entry_duplicate_always_conflict at a
concrete duplicate with different content. -/
theorem post_ledger_entry_duplicate_always_conflict_witness :
    post_ledger_entry sampleEntryAltered [("e1", sampleEntry)] =
      (Except.error ⟨409, "Entry already exists"⟩, [("e1", sampleEntry)]) :=
  post_ledger_entry_duplicate_always_conflict sampleEntryAltered sampleEntry
    [("e1", sampleEntry)] rfl

/-- Claim C3 counterexample: posting on a store whose chain head has hash
"h0" accepts an entry whose caller-chosen prev_hash is "bogus" and stores
it verbatim, so the stored prev_hash does not equal the hash of the
immediately preceding entry and the ledger computes no hash itself. -/
theorem ledger_stores_caller_supplied_prev_hash :
    priorEntry.hash = some "h0" ∧
    chainEntry.prev_hash = some "bogus" ∧
    (post_ledger_entry chainEntry chainDb).1 = Except.ok chainEntry ∧
    get_ledger_entry chainEntry.entry_id (post_ledger_entry chainEntry chainDb).2 =
      Except.ok chainEntry ∧
    chainEntry.prev_hash ≠ priorEntry.hash := by
  refine ⟨rfl, rfl, rfl, rfl, ?_⟩
  decide

/-- Claim C3 amended: post_ledger_entry stores the hash and prev_hash fields
exactly as supplied by the caller; it computes no hash and maintains no
chain linkage. -/
theorem post_ledger_entry_stores_fields_verbatim (entry : LedgerEntry)
    (db : LedgerDB) (h : db.lookup entry.entry_id = none) :
    (post_ledger_entry entry db).1 = Except.ok entry ∧
    ((post_ledger_entry entry db).2.lookup entry.entry_id).map
      LedgerEntry.prev_hash = some entry.prev_hash ∧
    ((post_ledger_entry entry db).2.lookup entry.entry_id).map
      LedgerEntry.hash = some entry.hash := by
  refine ⟨?_, ?_, ?_⟩ <;> simp [post_ledger_entry, h, List.lookup]

/-- Claim C3 witness: post_ledger_entry_stores_fields_verbatim at the
concrete chain store and entry. -/
theorem post_ledger_entry_stores_fields_verbatim_witness :
    (post_ledger_entry chainEntry chainDb).1 = Except.ok chainEntry ∧
    ((post_ledger_entry chainEntry chainDb).2.lookup chainEntry.entry_id).map
      LedgerEntry.prev_hash = some chainEntry.prev_hash ∧
    ((post_ledger_entry chainEntry chainDb).2.lookup chainEntry.entry_id).map
      LedgerEntry.hash = some chainEntry.hash :=
  post_ledger_entry_stores_fields_verbatim chainEntry chainDb rfl

/-- Claim C4: a revoked consent authorizes nothing — every authorize call
against a consent whose revoked flag is true yields Denied, whatever the
amount, rail, counterparty, usage history or clock, and hence never yields
Authorized or RequiresCosign. -/
theorem authorize_revoked_consent_denied (db : ConsentDB)
    (usage : List (ℚ × ℚ)) (consent_id agent_id : String) (amount : ℚ)
    (rail counterparty : String) (now : ℚ) (c : Consent)
    (hc : db.lookup consent_id = some c) (hr : c.revoked = true) :
    authorize db usage consent_id agent_id amount rail counterparty now =
      AuthDecision.Denied "consent revoked" := by
  simp [authorize, hc, hr]

/-- Claim C4 witness: authorize_revoked_consent_denied at the concrete
revoked consent, with an amount well inside every limit. -/
theorem authorize_revoked_consent_denied_witness :
    authorize consentDb1 [] "c1" "agent1" 50 "ach" "acme" 0 =
      AuthDecision.Denied "consent revoked" :=
  authorize_revoked_consent_denied consentDb1 [] "c1" "agent1" 50 "ach" "acme" 0
    revokedConsent rfl rfl

/-- Claim C5 counterexample: the decision is not driven by configurable
thresholds — the high band scores 8/10 and yields review, and no risk
request whatsoever produces the decision reject, so no configuration-borne
reject branch exists. -/
theorem score_risk_never_rejects :
    (score_risk highRiskReq).score = 8/10 ∧
    (score_risk highRiskReq).decision = "review" ∧
    ¬ ∃ req : RiskRequest, (score_risk req).decision = "reject" := by
  refine ⟨by norm_num [score_risk, highRiskReq], by norm_num [score_risk, highRiskReq], ?_⟩
  rintro ⟨req, h⟩
  unfold score_risk at h
  split_ifs at h <;> norm_num at h <;> exact absurd h (by decide)

/-- Claim C5 amended: score_risk compares the score against the hardcoded
constant 1/2, not against configured thresholds: the score is 1/10 for
amounts below 1000 and 8/10 otherwise, the decision is approve exactly when
the score is below 1/2 and review otherwise, and reject is never produced. -/
theorem score_risk_hardcoded_thresholds (req : RiskRequest) :
    (score_risk req).score = (if req.amount < 1000 then (1 : ℚ)/10 else 8/10) ∧
    (score_risk req).decision =
      (if (score_risk req).score < 1/2 then "approve" else "review") ∧
    (score_risk req).decision ≠ "reject" := by
  unfold score_risk
  by_cases h : req.amount < 1000 <;> simp [h] <;> norm_num <;> decide

/-- Claim C6: route_payment picks rail ach exactly when the amount is below
5000 and wire otherwise, and the plan it returns is the one fixed step
sequence authorize, place hold, submit, settle, release hold, reconcile, for
every request whatever its rail. -/
theorem route_payment_rail_band_and_fixed_plan (req : RouteRequest) :
    (route_payment req).rail = (if req.amount < 5000 then "ach" else "wire") ∧
    (route_payment req).plan =
      "authorize, place hold, submit, settle, release hold, reconcile" ∧
    (route_payment req).status = "routed" :=
  ⟨rfl, rfl, rfl⟩

/-- Claim C7 counterexample: a request whose currency matches no configured
band of any kind is still routed successfully with rail ach, instead of
failing with NoEligibleRail. -/
theorem route_payment_unconfigured_currency_still_routed :
    route_payment weirdRouteReq =
      { status := "routed", rail := "ach",
        plan := "authorize, place hold, submit, settle, release hold, reconcile" } := by
  norm_num [route_payment, weirdRouteReq]

/-- Claim C7 amended: route_payment never fails — every request, whatever
its currency, amount or counterparty, receives a routed plan whose rail is
ach or wire; no NoEligibleRail outcome exists. -/
theorem route_payment_never_fails (req : RouteRequest) :
    (route_payment req).status = "routed" ∧
    ((route_payment req).rail = "ach" ∨ (route_payment req).rail = "wire") := by
  unfold route_payment
  by_cases h : req.amount < 5000 <;> simp [h]

/-- Claim C8 counterexample: a consent whose limits are all strictly
negative is accepted and stored by create_consent on an empty store rather
than rejected with InvalidConsent. -/
theorem create_consent_accepts_negative_limits :
    negativeLimitsConsent.limits.single_txn_usd < 0 ∧
    negativeLimitsConsent.limits.daily_usd < 0 ∧
    negativeLimitsConsent.limits.max_txn_per_hour < 0 ∧
    create_consent negativeLimitsConsent [] =
      (Except.ok negativeLimitsConsent, [("c_neg", negativeLimitsConsent)]) := by
  refine ⟨by norm_num [negativeLimitsConsent], by norm_num [negativeLimitsConsent],
    by norm_num [negativeLimitsConsent], rfl⟩

/-- Claim C8 amended: create_consent fails with 409 Conflict exactly when
the id is already present and otherwise durably inserts the consent with no
validation of its limits; the inserted consent is retrievable as given. -/
theorem create_consent_only_checks_duplicate (consent : Consent)
    (db : ConsentDB) (h : db.lookup consent.id = none) :
    create_consent consent db = (Except.ok consent, (consent.id, consent) :: db) ∧
    get_consent consent.id ((consent.id, consent) :: db) = Except.ok consent := by
  constructor
  · simp [create_consent, h]
  · simp [get_consent, List.lookup]

/-- Claim C8 witness: create_consent_only_checks_duplicate at the concrete
negative-limits consent and the empty store. -/
theorem create_consent_only_checks_duplicate_witness :
    create_consent negativeLimitsConsent [] =
      (Except.ok negativeLimitsConsent,
        [(negativeLimitsConsent.id, negativeLimitsConsent)]) ∧
    get_consent negativeLimitsConsent.id
        [(negativeLimitsConsent.id, negativeLimitsConsent)] =
      Except.ok negativeLimitsConsent :=
  create_consent_only_checks_duplicate negativeLimitsConsent [] rfl

/-- Claim C9 counterexample: two distinct orchestration requests — same
agent and amount, different consent, currency and counterparty — are
assigned the same workflow_id by start_orchestration. -/
theorem workflow_id_collision_on_distinct_requests :
    orchReqA ≠ orchReqB ∧
    (start_orchestration orchReqA []).1.workflow_id =
      (start_orchestration orchReqB []).1.workflow_id := by
  constructor
  · simp [orchReqA, orchReqB]
  · rfl

/-- Claim C9 amended: the workflow_id depends only on agent_id and amount,
so two requests agreeing on those two fields receive the same workflow_id
however much they differ elsewhere, and starting the second workflow shadows
the first record in the store: the shared workflow_id now resolves to the
second record. -/
theorem workflow_id_depends_only_on_agent_and_amount
    (r1 r2 : OrchestrationRequest) (db : OrchDB)
    (ha : r1.agent_id = r2.agent_id) (hm : r1.amount = r2.amount) :
    (start_orchestration r1 db).1.workflow_id =
      (start_orchestration r2 db).1.workflow_id ∧
    get_orchestration_status (start_orchestration r1 db).1.workflow_id
        (start_orchestration r2 (start_orchestration r1 db).2).2 =
      Except.ok (start_orchestration r2 (start_orchestration r1 db).2).1 := by
  unfold start_orchestration get_orchestration_status
  simp [ha, hm, List.lookup]

/-- Claim C9 witness: workflow_id_depends_only_on_agent_and_amount at the
two concrete colliding requests and the empty store. -/
theorem workflow_id_depends_only_on_agent_and_amount_witness :
    (start_orchestration orchReqA []).1.workflow_id =
      (start_orchestration orchReqB []).1.workflow_id ∧
    get_orchestration_status (start_orchestration orchReqA []).1.workflow_id
        (start_orchestration orchReqB (start_orchestration orchReqA []).2).2 =
      Except.ok (start_orchestration orchReqB (start_orchestration orchReqA []).2).1 :=
  workflow_id_depends_only_on_agent_and_amount orchReqA orchReqB [] rfl rfl

/-- Claim C10: duplicate-id failures are atomic — when create_consent or
post_ledger_entry fails because the id is already present, the store comes
back unchanged and a get with that id still returns exactly the originally
stored entity. -/
theorem duplicate_id_failure_preserves_store
    (consent c0 : Consent) (cdb : ConsentDB)
    (entry e0 : LedgerEntry) (ldb : LedgerDB)
    (hc : cdb.lookup consent.id = some c0)
    (he : ldb.lookup entry.entry_id = some e0) :
    create_consent consent cdb = (Except.error ⟨409, "Consent already exists"⟩, cdb) ∧
    get_consent consent.id cdb = Except.ok c0 ∧
    post_ledger_entry entry ldb = (Except.error ⟨409, "Entry already exists"⟩, ldb) ∧
    get_ledger_entry entry.entry_id ldb = Except.ok e0 := by
  refine ⟨?_, ?_, ?_, ?_⟩
  · simp [create_consent, hc]
  · simp [get_consent, hc]
  · simp [post_ledger_entry, he]
  · simp [get_ledger_entry, he]

/-- Claim C10 witness: duplicate_id_failure_preserves_store at a concrete
consent store holding revokedConsent under id c1 and a concrete ledger store
holding sampleEntry under id e1, with conflicting creates of different
content. -/
theorem duplicate_id_failure_preserves_store_witness :
    create_consent alteredConsent consentDb1 =
      (Except.error ⟨409, "Consent already exists"⟩, consentDb1) ∧
    get_consent alteredConsent.id consentDb1 = Except.ok revokedConsent ∧
    post_ledger_entry sampleEntryAltered [("e1", sampleEntry)] =
      (Except.error ⟨409, "Entry already exists"⟩, [("e1", sampleEntry)]) ∧
    get_ledger_entry sampleEntryAltered.entry_id [("e1", sampleEntry)] =
      Except.ok sampleEntry :=
  duplicate_id_failure_preserves_store alteredConsent revokedConsent consentDb1
    sampleEntryAltered sampleEntry [("e1", sampleEntry)] rfl rfl
